import Mathlib

/-!
Shallow embedding of `src/hardware/camera/CameraHardware.cpp` (Android camera
HAL session object for Allwinner V4L2 cameras).  The `CameraHardware` class
logic — frame fan-out, preview start/stop, still capture, parameter merging,
and the stable-ABI dispatch wrappers — is translated function by function.
The collaborators that live outside this file (`V4L2CameraDevice`,
`PreviewWindow`, `CallbackNotifier`, `CCameraConfig`) are represented by
explicit state records plus a behavior record supplying the status codes and
size adjustments their fallible operations return; every call the session
makes into the device adapter is also appended to a call trace so that
"no device call is made" style properties are expressible.
-/

namespace CameraHAL

/-- Android `status_t` success value (`NO_ERROR` / `OK` = 0). -/
def NO_ERROR : Int := 0

/-- errno `EINVAL` as returned positively by the source (`return EINVAL;`). -/
def EINVAL : Int := 22

/-- Android `status_t` `UNKNOWN_ERROR` = INT32_MIN. -/
def UNKNOWN_ERROR : Int := -2147483648

/-- Android `status_t` `BAD_TYPE` = `UNKNOWN_ERROR + 1`. -/
def BAD_TYPE : Int := -2147483647

/-- A width/height pair, as carried around by `CameraParameters` size keys. -/
structure Size where
  w : Int
  h : Int
deriving DecidableEq

/-- A frame-available event from the device adapter: an (opaque) buffer
reference, its timestamp (`nsecs_t`), and the metadata-handle flag
(`bUseMataData` in the source). -/
structure FrameEvent where
  frame : Nat
  timestamp : Int
  useMetaData : Bool
deriving DecidableEq

/-- One call made by the session into the `V4L2CameraDevice` adapter. -/
inductive DevCall where
  | connect
  | disconnect
  | start (sz : Size) (fmt : Nat)
  | stop
  | startDeliver (oneBurst : Bool)
  | stopDeliver
  | tryFmt (sz : Size)
  | setPicSize (sz : Size)
  | getFrameRate
  | setEffect (code : Int)
  | setWB (code : Int)
  | setExposure (v : Int)
deriving DecidableEq

/-- Modelled from the spec: observable state of the Device Driver Adapter
(`V4L2CameraDevice`, not under `src/`) — connected/started/delivering flags,
the last negotiated stream geometry, the last pushed picture size, and the
trace of adapter calls made by the session. -/
structure DeviceState where
  connected : Bool
  started : Bool
  delivering : Bool
  oneBurst : Bool
  startSize : Size
  startFmt : Nat
  picSize : Size
  trace : List DevCall
deriving DecidableEq

/-- Modelled from the spec: state of the Display Sink (`PreviewWindow`, not
under `src/`): the enabled flag reported by `isPreviewEnabled()`, the layer
visibility set by `showLayer`, and the frames offered to the window. -/
structure PreviewWindowState where
  previewEnabled : Bool
  layerShown : Bool
  offered : List FrameEvent
deriving DecidableEq

/-- Modelled from the spec: state of the Recording Notifier
(`CallbackNotifier`, not under `src/`): the taking-picture flag, the JPEG
quality pushed to it, the video-recording enabled flag, the
metadata-buffer-mode flag, and the frames it has observed. -/
structure CallbackNotifierState where
  takingPicture : Bool
  jpegQuality : Int
  videoRecordingEnabled : Bool
  useMetaDataMode : Bool
  frames : List FrameEvent
deriving DecidableEq

/-- Behavior of the external collaborators during one control-path call:
status codes returned by each fallible operation and the size adjustment
performed by try-format negotiation.  Quantifying theorems over this record
covers every possible driver/sink response. -/
structure DeviceBehavior where
  connectRes : Int
  startRes : Int
  stopRes : Int
  deliverRes : Int
  tryFmtRes : Int
  tryFmtSize : Size → Size
  setImageEffectRes : Int → Int
  setWhiteBalanceRes : Int → Int
  setExposureRes : Int → Int
  pwStartRes : Int
  pwAccept : FrameEvent → Bool
  enableVideoRecRes : Int
  storeMetaRes : Int

/-- Modelled from the spec: `V4L2CameraDevice::connectDevice` — on success the
adapter reports connected. -/
def connectDevice (env : DeviceBehavior) (d : DeviceState) : Int × DeviceState :=
  let d := { d with trace := d.trace ++ [DevCall.connect] }
  if env.connectRes = NO_ERROR then (NO_ERROR, { d with connected := true })
  else (env.connectRes, d)

/-- Modelled from the spec: `V4L2CameraDevice::startDevice(w, h, fmt)` — on
success the stream is started at the given geometry and format code. -/
def startDevice (env : DeviceBehavior) (sz : Size) (fmt : Nat) (d : DeviceState) :
    Int × DeviceState :=
  let d := { d with trace := d.trace ++ [DevCall.start sz fmt] }
  if env.startRes = NO_ERROR then
    (NO_ERROR, { d with started := true, startSize := sz, startFmt := fmt })
  else (env.startRes, d)

/-- Modelled from the spec: `V4L2CameraDevice::stopDevice` — on success the
stream is stopped. -/
def stopDevice (env : DeviceBehavior) (d : DeviceState) : Int × DeviceState :=
  let d := { d with trace := d.trace ++ [DevCall.stop] }
  if env.stopRes = NO_ERROR then (NO_ERROR, { d with started := false })
  else (env.stopRes, d)

/-- Modelled from the spec: `V4L2CameraDevice::startDeliveringFrames(one_burst)`
— on success per-frame delivery begins (single-shot when `oneBurst`). -/
def startDeliveringFrames (env : DeviceBehavior) (oneBurst : Bool) (d : DeviceState) :
    Int × DeviceState :=
  let d := { d with trace := d.trace ++ [DevCall.startDeliver oneBurst] }
  if env.deliverRes = NO_ERROR then
    (NO_ERROR, { d with delivering := true, oneBurst := oneBurst })
  else (env.deliverRes, d)

/-- Modelled from the spec: `V4L2CameraDevice::stopDeliveringFrames` — the
source ignores its status everywhere, so it is modelled as always stopping
delivery. -/
def stopDeliveringFrames (d : DeviceState) : DeviceState :=
  { d with delivering := false, trace := d.trace ++ [DevCall.stopDeliver] }

/-- Modelled from the spec: `V4L2CameraDevice::tryFmtSize(&w, &h)` — pure
try-format negotiation; returns the adjusted size and leaves stream state
unchanged.  Its status is `env.tryFmtRes` (checked in `setParameters`,
ignored in `takePicture`). -/
def tryFmtSizeDev (env : DeviceBehavior) (sz : Size) (d : DeviceState) :
    Size × DeviceState :=
  (env.tryFmtSize sz, { d with trace := d.trace ++ [DevCall.tryFmt sz] })

/-- Modelled from the spec: `V4L2CameraDevice::setPictureSize(w, h)` — records
the picture size pushed to the driver. -/
def setPictureSizeDev (sz : Size) (d : DeviceState) : DeviceState :=
  { d with picSize := sz, trace := d.trace ++ [DevCall.setPicSize sz] }

/-- Modelled from the spec: `PreviewWindow::startPreview` — on success the
sink reports enabled. -/
def pwStartPreview (env : DeviceBehavior) (p : PreviewWindowState) :
    Int × PreviewWindowState :=
  if env.pwStartRes = NO_ERROR then (NO_ERROR, { p with previewEnabled := true })
  else (env.pwStartRes, p)

/-- Modelled from the spec: `PreviewWindow::stopPreview` — disables the sink. -/
def pwStopPreview (p : PreviewWindowState) : PreviewWindowState :=
  { p with previewEnabled := false }

/-- Modelled from the spec: `PreviewWindow::showLayer(show)`. -/
def pwShowLayer (b : Bool) (p : PreviewWindowState) : PreviewWindowState :=
  { p with layerShown := b }

/-- Modelled from the spec: `PreviewWindow::onNextFrameAvailable` — the frame
is offered to the window; the window accepts or declines it (no active window,
geometry mismatch, backpressure), reporting the result as a boolean. -/
def pwOnNextFrame (env : DeviceBehavior) (ev : FrameEvent) (p : PreviewWindowState) :
    Bool × PreviewWindowState :=
  (env.pwAccept ev, { p with offered := p.offered ++ [ev] })

/-- Modelled from the spec: `CallbackNotifier::onNextFrameAvailable` — the
notifier observes the frame (recording it with its timestamp). -/
def cbOnNextFrame (ev : FrameEvent) (cb : CallbackNotifierState) : CallbackNotifierState :=
  { cb with frames := cb.frames ++ [ev] }

/-- Modelled from the spec: `CallbackNotifier::enableVideoRecording(fps)`. -/
def cbEnableVideoRecording (env : DeviceBehavior) (cb : CallbackNotifierState) :
    Int × CallbackNotifierState :=
  if env.enableVideoRecRes = NO_ERROR then
    (NO_ERROR, { cb with videoRecordingEnabled := true })
  else (env.enableVideoRecRes, cb)

/-- Modelled from the spec: `CallbackNotifier::storeMetaDataInBuffers(enable)`. -/
def cbStoreMetaDataInBuffers (env : DeviceBehavior) (enable : Bool)
    (cb : CallbackNotifierState) : Int × CallbackNotifierState :=
  if env.storeMetaRes = NO_ERROR then
    (NO_ERROR, { cb with useMetaDataMode := enable })
  else (env.storeMetaRes, cb)

/-- The keys of a `CameraParameters` dictionary that `CameraHardware.cpp`
reads or writes.  The same record serves for the live Parameter Store
(`mParameters`) and for the unflattened candidate (`params`) handed to
`setParameters`; an absent key is `none`. -/
structure CameraParams where
  previewSize : Option Size
  pictureSize : Option Size
  videoSize : Option Size
  previewFormat : Option String
  pictureFormat : Option String
  videoFrameFormat : Option String
  recordingHint : Option String
  jpegQuality : Option Int
  rotation : Option Int
  effect : Option String
  whiteBalance : Option String
  exposureComp : Option Int
  minExposure : Option Int
  maxExposure : Option Int
  flashMode : Option String
  zoom : Option Int
deriving DecidableEq

/-- `CameraParameters::getPreviewSize` / `getPictureSize` semantics: parse the
stored pair, leaving (-1, -1) for a missing key. -/
def getSize (o : Option Size) : Size := o.getD ⟨-1, -1⟩

/-- `CameraParameters::getInt` semantics: -1 for a missing key. -/
def getIntD (o : Option Int) : Int := o.getD (-1)

/-- Capability table loaded from `CCameraConfig` (the `supportXxx()` flags the
source consults).  `supportedFlashModes` and `maxZoom` are modelled from the
spec: the Capability Table advertising flash-mode tags and a zoom range is
described in the spec; `CCameraConfig` itself is not under `src/` and
`CameraHardware::setParameters` never consults these two values. -/
structure CameraConfig where
  supportColorEffect : Bool
  supportWhiteBalance : Bool
  supportExposureCompensation : Bool
  supportFlashMode : Bool
  supportZoom : Bool
  supportedFlashModes : List String
  maxZoom : Int
deriving DecidableEq

/-- The whole `CameraHardware` object: capability table, Parameter Store and
the three collaborator states. -/
structure CameraHardwareState where
  cfg : CameraConfig
  params : CameraParams
  dev : DeviceState
  pw : PreviewWindowState
  cb : CallbackNotifierState
deriving DecidableEq

/-- `v4l2_fourcc(a, b, c, d)` from `videodev2.h`. -/
def v4l2Fourcc (a b c d : Char) : Nat :=
  a.toNat + b.toNat * 256 + c.toNat * 65536 + d.toNat * 16777216

/-- `V4L2_PIX_FMT_YUV420` = fourcc YU12. -/
def V4L2_PIX_FMT_YUV420 : Nat := v4l2Fourcc 'Y' 'U' '1' '2'

/-- `V4L2_PIX_FMT_NV12` = fourcc NV12. -/
def V4L2_PIX_FMT_NV12 : Nat := v4l2Fourcc 'N' 'V' '1' '2'

/-- `V4L2_PIX_FMT_RGB32` = fourcc RGB4. -/
def V4L2_PIX_FMT_RGB32 : Nat := v4l2Fourcc 'R' 'G' 'B' '4'

/-- `CameraParameters::PIXEL_FORMAT_YUV420SP`. -/
def PIXEL_FORMAT_YUV420SP : String := "yuv420sp"

/-- `CameraParameters::PIXEL_FORMAT_YUV420P`. -/
def PIXEL_FORMAT_YUV420P : String := "yuv420p"

/-- `CameraParameters::PIXEL_FORMAT_RGBA8888`. -/
def PIXEL_FORMAT_RGBA8888 : String := "rgba8888"

/-- `CameraParameters::PIXEL_FORMAT_JPEG`. -/
def PIXEL_FORMAT_JPEG : String := "jpeg"

/-- `CameraParameters::TRUE`. -/
def TRUE_STR : String := "true"

/-- `CameraParameters::FALSE`. -/
def FALSE_STR : String := "false"

/-- The `strcmp` chain of `doStartPreview` (lines 920-930) mapping an
application pixel-format tag to the V4L2 format code; `none` is the
"Unsupported pixel format" branch. -/
def previewFmtCode (s : String) : Option Nat :=
  if s = PIXEL_FORMAT_YUV420P then some V4L2_PIX_FMT_YUV420
  else if s = PIXEL_FORMAT_RGBA8888 then some V4L2_PIX_FMT_RGB32
  else if s = PIXEL_FORMAT_YUV420SP then some V4L2_PIX_FMT_NV12
  else none

/-- The `strcmp` chain of `takePicture` (lines 523-535): same as the preview
chain plus `jpeg`, which maps to the same NV12 code as `yuv420sp` because
JPEG encoding happens downstream of the raw capture. -/
def pictureFmtCode (s : String) : Option Nat :=
  if s = PIXEL_FORMAT_YUV420P then some V4L2_PIX_FMT_YUV420
  else if s = PIXEL_FORMAT_RGBA8888 then some V4L2_PIX_FMT_RGB32
  else if s = PIXEL_FORMAT_YUV420SP then some V4L2_PIX_FMT_NV12
  else if s = PIXEL_FORMAT_JPEG then some V4L2_PIX_FMT_NV12
  else none

/-- `V4L2_COLORFX_NONE`. -/
def V4L2_COLORFX_NONE : Int := 0

/-- `V4L2_COLORFX_BW`. -/
def V4L2_COLORFX_BW : Int := 1

/-- `V4L2_COLORFX_SEPIA`. -/
def V4L2_COLORFX_SEPIA : Int := 2

/-- `V4L2_COLORFX_NEGATIVE`. -/
def V4L2_COLORFX_NEGATIVE : Int := 3

/-- `V4L2_COLORFX_GRASS_GREEN`. -/
def V4L2_COLORFX_GRASS_GREEN : Int := 7

/-- The effect `strcmp` chain of `setParameters` (lines 696-710): tag to
`V4L2_COLORFX` code, `none` for the "Invalid effect" branch. -/
def effectCode (s : String) : Option Int :=
  if s = "none" then some V4L2_COLORFX_NONE
  else if s = "mono" then some V4L2_COLORFX_BW
  else if s = "sepia" then some V4L2_COLORFX_SEPIA
  else if s = "aqua" then some V4L2_COLORFX_GRASS_GREEN
  else if s = "negative" then some V4L2_COLORFX_NEGATIVE
  else none

/-- `V4L2_WB_AUTO` (vendor `videodev2.h`; the numeric values are not under
`src/` — only non-negativity and distinctness matter to the logic). -/
def V4L2_WB_AUTO : Int := 0

/-- `V4L2_WB_DAYLIGHT`. -/
def V4L2_WB_DAYLIGHT : Int := 1

/-- `V4L2_WB_CLOUD`. -/
def V4L2_WB_CLOUD : Int := 2

/-- `V4L2_WB_FLUORESCENT`. -/
def V4L2_WB_FLUORESCENT : Int := 3

/-- `V4L2_WB_INCANDESCENCE`. -/
def V4L2_WB_INCANDESCENCE : Int := 4

/-- `V4L2_WB_TUNGSTEN`. -/
def V4L2_WB_TUNGSTEN : Int := 5

/-- The white-balance `strcmp` chain of `setParameters` (lines 731-751): tag
to vendor white-balance code, `none` for the "Invalid white balance" branch
(e.g. `twilight`, `shade`). -/
def wbCode (s : String) : Option Int :=
  if s = "auto" then some V4L2_WB_AUTO
  else if s = "daylight" then some V4L2_WB_DAYLIGHT
  else if s = "cloudy-daylight" then some V4L2_WB_CLOUD
  else if s = "fluorescent" then some V4L2_WB_FLUORESCENT
  else if s = "incandescent" then some V4L2_WB_INCANDESCENCE
  else if s = "warm-fluorescent" then some V4L2_WB_TUNGSTEN
  else none

/-- `CameraHardware::onNextFrameAvailable` (lines 294-313): notify the
preview window first; if it declines, return its `false` without touching the
callback notifier; otherwise notify the callback notifier with the same frame
and timestamp and return `true`. -/
def onNextFrameAvailable (env : DeviceBehavior) (ev : FrameEvent)
    (s : CameraHardwareState) : Bool × CameraHardwareState :=
  let r := pwOnNextFrame env ev s.pw
  let s1 := { s with pw := r.2 }
  if r.1 = false then (false, s1)
  else (true, { s1 with cb := cbOnNextFrame ev s1.cb })

/-- `CameraHardware::doStopPreview` (lines 949-968): if the sink reports
preview enabled, stop delivery and the device stream when started, and
disable the sink only when the device stop succeeded; always return
`NO_ERROR`. -/
def doStopPreview (env : DeviceBehavior) (s : CameraHardwareState) :
    Int × CameraHardwareState :=
  if s.pw.previewEnabled then
    let resDev : Int × DeviceState :=
      if s.dev.started then stopDevice env (stopDeliveringFrames s.dev)
      else (NO_ERROR, s.dev)
    let s1 := { s with dev := resDev.2 }
    let s2 := if resDev.1 = NO_ERROR then { s1 with pw := pwStopPreview s1.pw } else s1
    (NO_ERROR, s2)
  else (NO_ERROR, s)

/-- Geometry resolution of `doStartPreview` (lines 884-890): video size when
the key is present, else preview size. -/
def resolvePreviewGeometry (m : CameraParams) : Size :=
  match m.videoSize with
  | some v => v
  | none => getSize m.previewSize

/-- Pixel-format resolution of `doStartPreview` (lines 898-916): when the
recording hint is the string `true`, prefer the video-frame-format key;
fall back to the preview format; `none` is the "Unable to obtain video
format" branch. -/
def resolvePreviewFmt (m : CameraParams) : Option String :=
  let isVideo := (m.recordingHint).getD FALSE_STR
  let pixFmt0 : Option String :=
    if isVideo = TRUE_STR then m.videoFrameFormat else none
  match pixFmt0 with
  | some f => some f
  | none => m.previewFormat

/-- `CameraHardware::doStartPreview` (lines 860-947): stop an already-started
stream, start the display sink, ensure the device is connected, resolve the
frame geometry and pixel format, map the tag to a V4L2 code, start the
device, then start continuous delivery; every failure after the sink start
rolls the sink (and, where reached, the stream) back. -/
def doStartPreview (env : DeviceBehavior) (s : CameraHardwareState) :
    Int × CameraHardwareState :=
  let dev0 := if s.dev.started then (stopDevice env (stopDeliveringFrames s.dev)).2
              else s.dev
  let pwr := pwStartPreview env s.pw
  if pwr.1 ≠ NO_ERROR then (pwr.1, { s with dev := dev0, pw := pwr.2 }) else
  let pw1 := pwr.2
  let conn := if dev0.connected = false then connectDevice env dev0 else (NO_ERROR, dev0)
  if conn.1 ≠ NO_ERROR then (conn.1, { s with dev := conn.2, pw := pwStopPreview pw1 }) else
  let dev1 := conn.2
  let sz := resolvePreviewGeometry s.params
  match (resolvePreviewFmt s.params).bind previewFmtCode with
  | none => (EINVAL, { s with dev := dev1, pw := pwStopPreview pw1 })
  | some orgFmt =>
    let st := startDevice env sz orgFmt dev1
    if st.1 ≠ NO_ERROR then (st.1, { s with dev := st.2, pw := pwStopPreview pw1 }) else
    let dl := startDeliveringFrames env false st.2
    if dl.1 ≠ NO_ERROR then
      (dl.1, { s with dev := (stopDevice env dl.2).2, pw := pwStopPreview pw1 })
    else (NO_ERROR, { s with dev := dl.2, pw := pw1 })

/-- `CameraHardware::takePicture` (lines 503-592): negotiate the picture size
via try-format, write the adjusted size back as the preview size, push the
requested picture size to the driver, map the picture-format tag (EINVAL if
unsupported), stop preview and the stream if running, hide the display layer,
start the device at the adjusted geometry, flag the notifier as taking a
picture with the resolved JPEG quality, then start single-cycle delivery
(with `one_burst = false` after the vendor modification); on a start or
delivery failure, restore preview if it had been running. -/
def takePicture (env : DeviceBehavior) (s : CameraHardwareState) :
    Int × CameraHardwareState :=
  let picSize := getSize s.params.pictureSize
  let r0 := tryFmtSizeDev env picSize s.dev
  let frameSize := r0.1
  let params1 := { s.params with previewSize := some frameSize }
  let dev1 := setPictureSizeDev picSize r0.2
  let s1 := { s with params := params1, dev := dev1 }
  match s.params.pictureFormat.bind pictureFmtCode with
  | none => (EINVAL, s1)
  | some orgFmt =>
    let jq0 := getIntD s.params.jpegQuality
    let jq := if jq0 ≤ 0 then 90 else jq0
    let previewOn := s1.pw.previewEnabled
    let s2 := if previewOn then (doStopPreview env s1).2 else s1
    let s3 := if s2.dev.started then
        { s2 with dev := (stopDevice env (stopDeliveringFrames s2.dev)).2 }
      else s2
    let s4 := { s3 with pw := pwShowLayer false s3.pw }
    let st := startDevice env frameSize orgFmt s4.dev
    if st.1 ≠ NO_ERROR then
      let s5 := { s4 with dev := st.2 }
      let s6 := if previewOn then (doStartPreview env s5).2 else s5
      (st.1, s6)
    else
      let cb5 := { s4.cb with jpegQuality := jq, takingPicture := true }
      let s5 := { s4 with dev := st.2, cb := cb5 }
      let dl := startDeliveringFrames env false s5.dev
      if dl.1 ≠ NO_ERROR then
        let s6 := { s5 with dev := dl.2, cb := { s5.cb with takingPicture := false } }
        let s7 := if previewOn then (doStartPreview env s6).2 else s6
        (dl.1, s7)
      else (NO_ERROR, { s5 with dev := dl.2 })

/-- Intermediate state threaded through the per-field merge loop of
`setParameters`: the Parameter Store being mutated, the device state (for
the `setImageEffect` / `setWhiteBalance` / `setExposure` calls), and the
local `ret` accumulator of the source. -/
structure SPState where
  m : CameraParams
  dev : DeviceState
  ret : Int
deriving DecidableEq

/-- `setParameters` JPEG-quality field (lines 673-678): committed only when
in 1..100. -/
def applyJpegQuality (p : CameraParams) (t : SPState) : SPState :=
  let jq := getIntD p.jpegQuality
  if 1 ≤ jq ∧ jq ≤ 100 then { t with m := { t.m with jpegQuality := some jq } } else t

/-- `setParameters` rotation field (lines 681-686): committed when
non-negative. -/
def applyRotation (p : CameraParams) (t : SPState) : SPState :=
  let rot := getIntD p.rotation
  if 0 ≤ rot then { t with m := { t.m with rotation := some rot } } else t

/-- `setParameters` image-effect field (lines 689-721): when the device
supports effects and a tag is present, an unknown tag or a device refusal
sets `ret = UNKNOWN_ERROR`; only an accepted tag is committed. -/
def applyEffect (env : DeviceBehavior) (cfg : CameraConfig) (p : CameraParams)
    (t : SPState) : SPState :=
  if cfg.supportColorEffect then
    match p.effect with
    | none => t
    | some e =>
      match effectCode e with
      | none => { t with ret := UNKNOWN_ERROR }
      | some c =>
        let t := { t with dev := { t.dev with trace := t.dev.trace ++ [DevCall.setEffect c] } }
        if env.setImageEffectRes c < 0 then { t with ret := UNKNOWN_ERROR }
        else { t with m := { t.m with effect := some e } }
  else t

/-- `setParameters` white-balance field (lines 724-766): same pattern as the
effect field, against the white-balance tag table. -/
def applyWhiteBalance (env : DeviceBehavior) (cfg : CameraConfig) (p : CameraParams)
    (t : SPState) : SPState :=
  if cfg.supportWhiteBalance then
    match p.whiteBalance with
    | none => t
    | some w =>
      match wbCode w with
      | none => { t with ret := UNKNOWN_ERROR }
      | some c =>
        let t := { t with dev := { t.dev with trace := t.dev.trace ++ [DevCall.setWB c] } }
        if env.setWhiteBalanceRes c < 0 then { t with ret := UNKNOWN_ERROR }
        else { t with m := { t.m with whiteBalance := some w } }
  else t

/-- `setParameters` exposure-compensation field (lines 769-784): checked
against the min/max read from the candidate itself, pushed to the device,
committed only when the device accepts it. -/
def applyExposure (env : DeviceBehavior) (cfg : CameraConfig) (p : CameraParams)
    (t : SPState) : SPState :=
  if cfg.supportExposureCompensation then
    let ne := getIntD p.exposureComp
    let mx := getIntD p.maxExposure
    let mn := getIntD p.minExposure
    if mn ≤ ne ∧ ne ≤ mx then
      let t := { t with dev := { t.dev with trace := t.dev.trace ++ [DevCall.setExposure ne] } }
      if env.setExposureRes ne < 0 then { t with ret := UNKNOWN_ERROR }
      else { t with m := { t.m with exposureComp := some ne } }
    else t
  else t

/-- `setParameters` flash-mode field (lines 787-791): committed verbatim with
no validation whenever the device supports a flash. -/
def applyFlashMode (cfg : CameraConfig) (p : CameraParams) (t : SPState) : SPState :=
  if cfg.supportFlashMode then { t with m := { t.m with flashMode := p.flashMode } } else t

/-- `setParameters` zoom field (lines 794-799): committed verbatim (via
`getInt`, so -1 when absent) with no range check whenever zoom is
supported. -/
def applyZoom (cfg : CameraConfig) (p : CameraParams) (t : SPState) : SPState :=
  if cfg.supportZoom then { t with m := { t.m with zoom := some (getIntD p.zoom) } } else t

/-- The tail of `setParameters` after the preview-size step (lines 669-801):
the `getFrameRate` device call, then the per-field merges.  The accumulated
`ret` is carried in `SPState` but the function returns `NO_ERROR`
unconditionally, exactly as the source's final `return NO_ERROR;` discards
the accumulator. -/
def setParamsRest (env : DeviceBehavior) (cfg : CameraConfig) (p : CameraParams)
    (m : CameraParams) (dev : DeviceState) (ret : Int) : Int × CameraParams × DeviceState :=
  let t0 : SPState := ⟨m, { dev with trace := dev.trace ++ [DevCall.getFrameRate] }, ret⟩
  let t1 := applyJpegQuality p t0
  let t2 := applyRotation p t1
  let t3 := applyEffect env cfg p t2
  let t4 := applyWhiteBalance env cfg p t3
  let t5 := applyExposure env cfg p t4
  let t6 := applyFlashMode cfg p t5
  let t7 := applyZoom cfg p t6
  (NO_ERROR, t7.m, t7.dev)

/-- `CameraHardware::setParameters` (lines 601-802): reject a preview format
other than `yuv420sp` or a picture format other than `jpeg` with `BAD_TYPE`;
merge a positive picture size; for a positive preview size run try-format
(aborting with its status when negative) and merge the adjusted size and
format; then merge the remaining fields per `setParamsRest`.  A `none`
format in the candidate is modelled as a mismatch (the source would `strcmp`
a null pointer there). -/
def setParameters (env : DeviceBehavior) (p : CameraParams)
    (s : CameraHardwareState) : Int × CameraHardwareState :=
  if p.previewFormat ≠ some PIXEL_FORMAT_YUV420SP then (BAD_TYPE, s) else
  if p.pictureFormat ≠ some PIXEL_FORMAT_JPEG then (BAD_TYPE, s) else
  let ps := getSize p.pictureSize
  let params1 := if 0 < ps.w ∧ 0 < ps.h then { s.params with pictureSize := some ps }
                 else s.params
  let pvs := getSize p.previewSize
  if 0 < pvs.w ∧ 0 < pvs.h then
    let r := tryFmtSizeDev env pvs s.dev
    if env.tryFmtRes < 0 then (env.tryFmtRes, { s with params := params1, dev := r.2 })
    else
      let params2 := { params1 with previewSize := some r.1, previewFormat := p.previewFormat }
      let out := setParamsRest env s.cfg p params2 r.2 env.tryFmtRes
      (out.1, { s with params := out.2.1, dev := out.2.2 })
  else
    let out := setParamsRest env s.cfg p params1 s.dev UNKNOWN_ERROR
    (out.1, { s with params := out.2.1, dev := out.2.2 })

/-- What `getParameters` hands back across the boundary: a freshly allocated
copy of the flattened parameters, the static `lNoParam` sentinel, or the
undefined behavior of `memset` on a null pointer. -/
inductive PtrResult where
  | heap (s : String)
  | sentinel
  | nullDeref
deriving DecidableEq

/-- A stand-in for `CameraParameters::flatten`: some injective serialization
of the store; its exact format is irrelevant to the claims. -/
def flattenParams (m : CameraParams) : String :=
  String.intercalate ";"
    [toString (getSize m.previewSize).w, toString (getSize m.previewSize).h,
     toString (getSize m.pictureSize).w, toString (getSize m.pictureSize).h,
     toString (getIntD m.jpegQuality)]

/-- `CameraHardware::getParameters` (lines 807-822): `malloc` a copy buffer,
`memset` it to zero, and only then test the pointer for null, returning the
copied string or the `lNoParam` sentinel.  When `malloc` fails (`allocOk =
false`) the `memset` dereferences the null pointer before the check is
reached. -/
def getParametersM (allocOk : Bool) (m : CameraParams) : PtrResult :=
  if allocOk then PtrResult.heap (flattenParams m)
  else PtrResult.nullDeref

/-- `CameraHardware::putParameters` (lines 824-831): free the buffer only
when it is non-null and not the `lNoParam` sentinel.  The null pointer case
is folded into `sentinel`-vs-`heap`: `true` means `free` is called. -/
def putParametersFrees (ptr : PtrResult) : Bool :=
  match ptr with
  | PtrResult.heap _ => true
  | _ => false

/-- `CameraHardware::startPreview` (lines 436-441): the negating public
wrapper over `doStartPreview`. -/
def startPreviewPub (env : DeviceBehavior) (s : CameraHardwareState) :
    Int × CameraHardwareState :=
  let r := doStartPreview env s
  (-r.1, r.2)

/-- `CameraHardware::connectCamera` (lines 345-362): connect the device and
return the negated status. -/
def connectCameraPub (env : DeviceBehavior) (s : CameraHardwareState) :
    Int × CameraHardwareState :=
  let r := connectDevice env s.dev
  (-r.1, { s with dev := r.2 })

/-- `CameraHardware::startRecording` (lines 462-467): negation of the
notifier's `enableVideoRecording`. -/
def startRecordingPub (env : DeviceBehavior) (s : CameraHardwareState) :
    Int × CameraHardwareState :=
  let r := cbEnableVideoRecording env s.cb
  (-r.1, { s with cb := r.2 })

/-- `CameraHardware::storeMetaDataInBuffers` (lines 455-460): negation of the
notifier's status. -/
def storeMetaDataInBuffersPub (env : DeviceBehavior) (enable : Bool)
    (s : CameraHardwareState) : Int × CameraHardwareState :=
  let r := cbStoreMetaDataInBuffers env enable s.cb
  (-r.1, { s with cb := r.2 })

/-- The `camera_device_ops_t` slot `take_picture` (lines 1205-1215): it
dispatches to `takePicture` and returns its status UNNEGATED. -/
def takePictureDispatch (env : DeviceBehavior) (s : CameraHardwareState) : Int :=
  (takePicture env s).1

/-- The `camera_device_ops_t` slot `set_parameters` (lines 1229-1239): it
dispatches to `setParameters` and returns its status UNNEGATED. -/
def setParametersDispatch (env : DeviceBehavior) (p : CameraParams)
    (s : CameraHardwareState) : Int :=
  (setParameters env p s).1

/-- The `camera_device_ops_t` slot `start_preview` (lines 1083-1093): it
dispatches to the negating member `startPreview`. -/
def startPreviewDispatch (env : DeviceBehavior) (s : CameraHardwareState) : Int :=
  (startPreviewPub env s).1

/-- An all-success collaborator behavior (every status 0, try-format returns
the requested size unchanged, the display sink accepts every frame). -/
def envOk : DeviceBehavior where
  connectRes := NO_ERROR
  startRes := NO_ERROR
  stopRes := NO_ERROR
  deliverRes := NO_ERROR
  tryFmtRes := NO_ERROR
  tryFmtSize := fun sz => sz
  setImageEffectRes := fun _ => NO_ERROR
  setWhiteBalanceRes := fun _ => NO_ERROR
  setExposureRes := fun _ => NO_ERROR
  pwStartRes := NO_ERROR
  pwAccept := fun _ => true
  enableVideoRecRes := NO_ERROR
  storeMetaRes := NO_ERROR

/-- The all-success behavior with a display sink that declines every frame. -/
def envDecline : DeviceBehavior :=
  { envOk with pwAccept := fun _ => false }

/-- An all-success behavior whose try-format negotiation adjusts every
request to 800x600 (a driver that cannot deliver the requested geometry). -/
def envAdjust : DeviceBehavior :=
  { envOk with tryFmtSize := fun _ => ⟨800, 600⟩ }

/-- A capability table supporting every axis, advertising flash modes
`off`/`on` and zoom indices 0..10. -/
def cfgAll : CameraConfig where
  supportColorEffect := true
  supportWhiteBalance := true
  supportExposureCompensation := true
  supportFlashMode := true
  supportZoom := true
  supportedFlashModes := ["off", "on"]
  maxZoom := 10

/-- A Parameter Store as seeded by `initDefaultParameters` (640x480 preview
and picture, `yuv420sp` preview and video-frame formats, `jpeg` picture
format, JPEG quality 90). -/
def paramsDefault : CameraParams where
  previewSize := some ⟨640, 480⟩
  pictureSize := some ⟨640, 480⟩
  videoSize := some ⟨640, 480⟩
  previewFormat := some PIXEL_FORMAT_YUV420SP
  pictureFormat := some PIXEL_FORMAT_JPEG
  videoFrameFormat := some PIXEL_FORMAT_YUV420SP
  recordingHint := none
  jpegQuality := some 90
  rotation := some 0
  effect := some "none"
  whiteBalance := some "auto"
  exposureComp := some 0
  minExposure := some (-4)
  maxExposure := some 4
  flashMode := some "off"
  zoom := some 0

/-- A disconnected, idle device adapter. -/
def devIdle : DeviceState where
  connected := false
  started := false
  delivering := false
  oneBurst := false
  startSize := ⟨0, 0⟩
  startFmt := 0
  picSize := ⟨0, 0⟩
  trace := []

/-- A disabled display sink. -/
def pwIdle : PreviewWindowState where
  previewEnabled := false
  layerShown := true
  offered := []

/-- An idle callback notifier. -/
def cbIdle : CallbackNotifierState where
  takingPicture := false
  jpegQuality := 90
  videoRecordingEnabled := false
  useMetaDataMode := false
  frames := []

/-- A freshly initialized session: default parameters, idle collaborators. -/
def stateIdle : CameraHardwareState where
  cfg := cfgAll
  params := paramsDefault
  dev := devIdle
  pw := pwIdle
  cb := cbIdle

/-- A session with a still capture in flight: device connected, started and
delivering a single cycle, preview stopped and layer hidden, the notifier's
taking-picture flag set. -/
def statePending : CameraHardwareState where
  cfg := cfgAll
  params := paramsDefault
  dev := { connected := true, started := true, delivering := true, oneBurst := false,
           startSize := ⟨640, 480⟩, startFmt := V4L2_PIX_FMT_NV12,
           picSize := ⟨640, 480⟩, trace := [] }
  pw := { previewEnabled := false, layerShown := false, offered := [] }
  cb := { takingPicture := true, jpegQuality := 90, videoRecordingEnabled := false,
          useMetaDataMode := false, frames := [] }

/-- A sample frame-available event. -/
def ev0 : FrameEvent := ⟨1, 123456789, false⟩

/-- Claim C1: on every frame-available event the frame is offered to the
Display Sink first; when the sink declines, the Recording Notifier never
observes the frame and the event returns `false`; when the sink accepts, the
very same frame reference and timestamp are then handed to the Recording
Notifier. -/
theorem frame_fanout_display_gates_notifier (env : DeviceBehavior) (ev : FrameEvent)
    (s : CameraHardwareState) :
    (onNextFrameAvailable env ev s).2.pw.offered = s.pw.offered ++ [ev] ∧
    (env.pwAccept ev = false →
      (onNextFrameAvailable env ev s).2.cb.frames = s.cb.frames ∧
      (onNextFrameAvailable env ev s).1 = false) ∧
    (env.pwAccept ev = true →
      (onNextFrameAvailable env ev s).2.cb.frames = s.cb.frames ++ [ev] ∧
      (onNextFrameAvailable env ev s).1 = true) := by
  unfold onNextFrameAvailable pwOnNextFrame cbOnNextFrame
  by_cases h : env.pwAccept ev = true <;> simp_all

/-- Witness for C1 at a concrete accepting sink and a concrete declining
sink. -/
theorem frame_fanout_display_gates_notifier_witness :
    ((onNextFrameAvailable envOk ev0 stateIdle).2.cb.frames =
        stateIdle.cb.frames ++ [ev0] ∧
      (onNextFrameAvailable envOk ev0 stateIdle).1 = true) ∧
    ((onNextFrameAvailable envDecline ev0 stateIdle).2.cb.frames =
        stateIdle.cb.frames ∧
      (onNextFrameAvailable envDecline ev0 stateIdle).1 = false) :=
  ⟨(frame_fanout_display_gates_notifier envOk ev0 stateIdle).2.2 rfl,
   (frame_fanout_display_gates_notifier envDecline ev0 stateIdle).2.1 rfl⟩

/-- A session with preview running: device connected and started, continuous
delivery active, display sink enabled. -/
def statePreviewing : CameraHardwareState where
  cfg := cfgAll
  params := paramsDefault
  dev := { connected := true, started := true, delivering := true, oneBurst := false,
           startSize := ⟨640, 480⟩, startFmt := V4L2_PIX_FMT_NV12,
           picSize := ⟨0, 0⟩, trace := [] }
  pw := { previewEnabled := true, layerShown := true, offered := [] }
  cb := cbIdle

/-- `doStopPreview` returns `NO_ERROR` on every state and behavior (the
source's final `return NO_ERROR;`). -/
theorem doStopPreview_status (env : DeviceBehavior) (s : CameraHardwareState) :
    (doStopPreview env s).1 = NO_ERROR := by
  unfold doStopPreview
  split <;> simp

/-- Claim C8: `stopPreview` on a stopped preview is a no-op returning
success, two consecutive calls both return success, and on an active preview
it stops delivery, then the stream (in that order), disabling the sink
exactly when the device stop succeeds. -/
theorem stopPreview_idempotent_ordered (env : DeviceBehavior) (s : CameraHardwareState) :
    (s.pw.previewEnabled = false → doStopPreview env s = (NO_ERROR, s)) ∧
    (doStopPreview env s).1 = NO_ERROR ∧
    (doStopPreview env (doStopPreview env s).2).1 = NO_ERROR ∧
    (s.pw.previewEnabled = true → s.dev.started = true →
      (doStopPreview env s).2.dev.trace =
        s.dev.trace ++ [DevCall.stopDeliver, DevCall.stop] ∧
      ((doStopPreview env s).2.pw.previewEnabled = false ↔ env.stopRes = NO_ERROR)) := by
  refine ⟨?_, doStopPreview_status env s, doStopPreview_status env _, ?_⟩
  · intro h
    unfold doStopPreview
    simp [h]
  · intro hp hs
    unfold doStopPreview stopDevice stopDeliveringFrames pwStopPreview
    by_cases hres : env.stopRes = NO_ERROR <;> simp [hp, hs, hres]

/-- Witness for C8: a stopped preview is a strict no-op, and an active
preview stops delivery then the stream and disables the sink under an
all-success device. -/
theorem stopPreview_idempotent_ordered_witness :
    (doStopPreview envOk stateIdle = (NO_ERROR, stateIdle)) ∧
    ((doStopPreview envOk statePreviewing).2.dev.trace =
        statePreviewing.dev.trace ++ [DevCall.stopDeliver, DevCall.stop] ∧
      ((doStopPreview envOk statePreviewing).2.pw.previewEnabled = false ↔
        envOk.stopRes = NO_ERROR)) :=
  ⟨(stopPreview_idempotent_ordered envOk stateIdle).1 rfl,
   (stopPreview_idempotent_ordered envOk statePreviewing).2.2.2 rfl rfl⟩

/-- Claim C7: whenever `doStartPreview` fails at a step after the display
sink was started (the sink's own start succeeded), and the device adapter's
stop operation works, the returned state has the display sink disabled and
the device stream stopped. -/
theorem startPreview_failure_rolls_back (env : DeviceBehavior) (s : CameraHardwareState)
    (hstop : env.stopRes = NO_ERROR) (hpw : env.pwStartRes = NO_ERROR)
    (hfail : (doStartPreview env s).1 ≠ NO_ERROR) :
    (doStartPreview env s).2.pw.previewEnabled = false ∧
    (doStartPreview env s).2.dev.started = false := by
  unfold doStartPreview at *
  by_cases h1 : s.dev.started <;>
  by_cases h2 : s.dev.connected <;>
  by_cases h3 : env.connectRes = NO_ERROR <;>
  cases hf : (resolvePreviewFmt s.params).bind previewFmtCode <;>
  by_cases h4 : env.startRes = NO_ERROR <;>
  by_cases h5 : env.deliverRes = NO_ERROR <;>
  simp_all [pwStartPreview, connectDevice, startDevice, startDeliveringFrames,
    stopDevice, stopDeliveringFrames, pwStopPreview]

/-- Witness for C7: with a successful sink start and a device whose connect
fails, `doStartPreview` fails and leaves the sink disabled and the stream
stopped. -/
theorem startPreview_failure_rolls_back_witness :
    ({ envOk with connectRes := 1 }.stopRes = NO_ERROR ∧
      { envOk with connectRes := 1 }.pwStartRes = NO_ERROR ∧
      (doStartPreview { envOk with connectRes := 1 } stateIdle).1 ≠ NO_ERROR) ∧
    ((doStartPreview { envOk with connectRes := 1 } stateIdle).2.pw.previewEnabled = false ∧
      (doStartPreview { envOk with connectRes := 1 } stateIdle).2.dev.started = false) :=
  ⟨⟨rfl, rfl, by decide⟩,
   startPreview_failure_rolls_back { envOk with connectRes := 1 } stateIdle rfl rfl
     (by decide)⟩

/-- `stopDeliveringFrames` does not touch the pushed picture size. -/
theorem stopDeliveringFrames_picSize (d : DeviceState) :
    (stopDeliveringFrames d).picSize = d.picSize := rfl

/-- `stopDevice` does not touch the pushed picture size. -/
theorem stopDevice_picSize (env : DeviceBehavior) (d : DeviceState) :
    (stopDevice env d).2.picSize = d.picSize := by
  unfold stopDevice
  split <;> rfl

/-- `startDevice` does not touch the pushed picture size. -/
theorem startDevice_picSize (env : DeviceBehavior) (sz : Size) (fmt : Nat)
    (d : DeviceState) : (startDevice env sz fmt d).2.picSize = d.picSize := by
  unfold startDevice
  split <;> rfl

/-- `connectDevice` does not touch the pushed picture size. -/
theorem connectDevice_picSize (env : DeviceBehavior) (d : DeviceState) :
    (connectDevice env d).2.picSize = d.picSize := by
  unfold connectDevice
  split <;> rfl

/-- `startDeliveringFrames` does not touch the pushed picture size. -/
theorem startDeliveringFrames_picSize (env : DeviceBehavior) (b : Bool)
    (d : DeviceState) : (startDeliveringFrames env b d).2.picSize = d.picSize := by
  unfold startDeliveringFrames
  split <;> rfl

/-- `doStopPreview` never writes the Parameter Store. -/
theorem doStopPreview_params (env : DeviceBehavior) (s : CameraHardwareState) :
    (doStopPreview env s).2.params = s.params := by
  unfold doStopPreview
  dsimp only
  repeat' split
  all_goals rfl

/-- `doStopPreview` does not touch the pushed picture size. -/
theorem doStopPreview_picSize (env : DeviceBehavior) (s : CameraHardwareState) :
    (doStopPreview env s).2.dev.picSize = s.dev.picSize := by
  unfold doStopPreview
  dsimp only
  repeat' split
  all_goals simp [stopDevice_picSize, stopDeliveringFrames_picSize]

/-- `doStartPreview` never writes the Parameter Store. -/
theorem doStartPreview_params (env : DeviceBehavior) (s : CameraHardwareState) :
    (doStartPreview env s).2.params = s.params := by
  unfold doStartPreview
  dsimp only
  repeat' split
  all_goals rfl

/-- `doStartPreview` does not touch the pushed picture size. -/
theorem doStartPreview_picSize (env : DeviceBehavior) (s : CameraHardwareState) :
    (doStartPreview env s).2.dev.picSize = s.dev.picSize := by
  unfold doStartPreview
  dsimp only
  repeat' split
  all_goals simp [stopDevice_picSize, stopDeliveringFrames_picSize,
    connectDevice_picSize, startDevice_picSize, startDeliveringFrames_picSize]

/-- Claim C6: every `takePicture` call hands the requested picture size to
the driver's try-format negotiation and writes the adjusted size it reports
back into the Parameter Store as the new preview size, while the original
requested picture size is pushed to the driver via set-picture-size. -/
theorem takePicture_negotiated_sizes (env : DeviceBehavior) (s : CameraHardwareState) :
    (takePicture env s).2.params.previewSize =
      some (env.tryFmtSize (getSize s.params.pictureSize)) ∧
    (takePicture env s).2.dev.picSize = getSize s.params.pictureSize := by
  unfold takePicture
  dsimp only
  cases hf : s.params.pictureFormat.bind pictureFmtCode <;>
    simp only [hf] <;>
    repeat' split
  all_goals simp [tryFmtSizeDev, setPictureSizeDev, doStopPreview_params,
    doStopPreview_picSize, doStartPreview_params, doStartPreview_picSize,
    stopDevice_picSize, stopDeliveringFrames_picSize, startDevice_picSize,
    startDeliveringFrames_picSize]

/-- Counterexample for C3: with an all-success device and a still capture in
flight (`takingPicture` set, single frame not yet delivered), a second
`takePicture` is NOT rejected: it returns success and issues further device
calls (stopping and restarting the in-flight stream). -/
theorem takePicture_second_call_not_rejected :
    (takePicture envOk statePending).1 = NO_ERROR ∧
    (takePicture envOk statePending).2.dev.trace ≠ statePending.dev.trace := by
  decide

/-- Claim C3 as amended: a `takePicture` issued while a previous still
capture is pending (taking-picture flag set, device started, preview off) is
not rejected; it stops the in-flight delivery and stream, restarts the
device for a fresh single-cycle capture, and returns success when the device
operations succeed, leaving the taking-picture flag set. -/
theorem takePicture_while_pending_restarts (env : DeviceBehavior)
    (s : CameraHardwareState) (c : Nat)
    (hc : s.params.pictureFormat.bind pictureFmtCode = some c)
    (htp : s.cb.takingPicture = true) (hst : s.dev.started = true)
    (hpw : s.pw.previewEnabled = false)
    (hstop : env.stopRes = NO_ERROR) (hstart : env.startRes = NO_ERROR)
    (hdel : env.deliverRes = NO_ERROR) :
    (takePicture env s).1 = NO_ERROR ∧
    (takePicture env s).2.cb.takingPicture = true ∧
    (takePicture env s).2.dev.trace = s.dev.trace ++
      [DevCall.tryFmt (getSize s.params.pictureSize),
       DevCall.setPicSize (getSize s.params.pictureSize),
       DevCall.stopDeliver, DevCall.stop,
       DevCall.start (env.tryFmtSize (getSize s.params.pictureSize)) c,
       DevCall.startDeliver false] := by
  unfold takePicture
  dsimp only
  simp [hc, htp, hst, hpw, hstop, hstart, hdel, tryFmtSizeDev, setPictureSizeDev,
    stopDevice, stopDeliveringFrames, startDevice, startDeliveringFrames, pwShowLayer]

/-- Witness for the amended C3 at the concrete pending-capture session. -/
theorem takePicture_while_pending_restarts_witness :
    (takePicture envOk statePending).1 = NO_ERROR ∧
    (takePicture envOk statePending).2.cb.takingPicture = true ∧
    (takePicture envOk statePending).2.dev.trace = statePending.dev.trace ++
      [DevCall.tryFmt (getSize statePending.params.pictureSize),
       DevCall.setPicSize (getSize statePending.params.pictureSize),
       DevCall.stopDeliver, DevCall.stop,
       DevCall.start (envOk.tryFmtSize (getSize statePending.params.pictureSize))
         V4L2_PIX_FMT_NV12,
       DevCall.startDeliver false] :=
  takePicture_while_pending_restarts envOk statePending V4L2_PIX_FMT_NV12
    (by decide) rfl rfl rfl rfl rfl rfl

/-- A session whose Parameter Store holds an unsupported picture-format tag. -/
def stateBadPicFmt : CameraHardwareState :=
  { stateIdle with params := { paramsDefault with pictureFormat := some "yuv422i" } }

/-- Counterexample for C5: with an unsupported picture-format tag,
`takePicture` does return `EINVAL`, but the Parameter Store is NOT left as
it was (the preview size is overwritten with the try-format adjusted picture
size) and device calls ARE made before the failure. -/
theorem takePicture_unsupported_format_mutates_store :
    (takePicture envAdjust stateBadPicFmt).1 = EINVAL ∧
    (takePicture envAdjust stateBadPicFmt).2.params.previewSize ≠
      stateBadPicFmt.params.previewSize ∧
    (takePicture envAdjust stateBadPicFmt).2.dev.trace ≠
      stateBadPicFmt.dev.trace := by
  decide

/-- The state reached by `takePicture` when the picture-format tag is
unsupported: preview size already overwritten with the adjusted picture
size, try-format and set-picture-size already issued, everything else
untouched. -/
def takePictureAborted (env : DeviceBehavior) (s : CameraHardwareState) :
    CameraHardwareState :=
  let p := getSize s.params.pictureSize
  let params1 := { s.params with previewSize := some (env.tryFmtSize p) }
  let dev1a := { s.dev with picSize := p }
  let dev1 := { dev1a with trace := s.dev.trace ++ [DevCall.tryFmt p, DevCall.setPicSize p] }
  { s with params := params1, dev := dev1 }

/-- Claim C5 as amended: an unsupported picture-format tag makes
`takePicture` fail with `EINVAL` before the stream is started, but only
after try-format and set-picture-size have been issued to the driver and the
adjusted size written into the Parameter Store as the preview size; the
stream, sinks and notifier are untouched.  Both the raw `yuv420sp` tag and
the `jpeg` tag map to the same device format code. -/
theorem takePicture_unsupported_format_aborts (env : DeviceBehavior)
    (s : CameraHardwareState)
    (hf : s.params.pictureFormat.bind pictureFmtCode = none) :
    takePicture env s = (EINVAL, takePictureAborted env s) ∧
    pictureFmtCode PIXEL_FORMAT_YUV420SP = pictureFmtCode PIXEL_FORMAT_JPEG := by
  refine ⟨?_, rfl⟩
  unfold takePicture takePictureAborted
  dsimp only
  simp [hf, tryFmtSizeDev, setPictureSizeDev]

/-- Witness for the amended C5 at the concrete bad-format session. -/
theorem takePicture_unsupported_format_aborts_witness :
    takePicture envAdjust stateBadPicFmt = (EINVAL, takePictureAborted envAdjust stateBadPicFmt) ∧
    pictureFmtCode PIXEL_FORMAT_YUV420SP = pictureFmtCode PIXEL_FORMAT_JPEG :=
  takePicture_unsupported_format_aborts envAdjust stateBadPicFmt (by decide)

/-- The JPEG-quality merge touches neither white balance nor flash mode nor
zoom. -/
theorem applyJpegQuality_fields (p : CameraParams) (t : SPState) :
    (applyJpegQuality p t).m.whiteBalance = t.m.whiteBalance ∧
    (applyJpegQuality p t).m.flashMode = t.m.flashMode ∧
    (applyJpegQuality p t).m.zoom = t.m.zoom := by
  unfold applyJpegQuality
  dsimp only
  repeat' split
  all_goals exact ⟨rfl, rfl, rfl⟩

/-- The rotation merge touches neither JPEG quality nor white balance nor
flash mode nor zoom. -/
theorem applyRotation_fields (p : CameraParams) (t : SPState) :
    (applyRotation p t).m.jpegQuality = t.m.jpegQuality ∧
    (applyRotation p t).m.whiteBalance = t.m.whiteBalance ∧
    (applyRotation p t).m.flashMode = t.m.flashMode ∧
    (applyRotation p t).m.zoom = t.m.zoom := by
  unfold applyRotation
  dsimp only
  repeat' split
  all_goals exact ⟨rfl, rfl, rfl, rfl⟩

/-- The effect merge touches neither JPEG quality nor white balance nor
flash mode nor zoom. -/
theorem applyEffect_fields (env : DeviceBehavior) (cfg : CameraConfig)
    (p : CameraParams) (t : SPState) :
    (applyEffect env cfg p t).m.jpegQuality = t.m.jpegQuality ∧
    (applyEffect env cfg p t).m.whiteBalance = t.m.whiteBalance ∧
    (applyEffect env cfg p t).m.flashMode = t.m.flashMode ∧
    (applyEffect env cfg p t).m.zoom = t.m.zoom := by
  unfold applyEffect
  dsimp only
  repeat' split
  all_goals exact ⟨rfl, rfl, rfl, rfl⟩

/-- The white-balance merge never touches JPEG quality, flash mode or zoom. -/
theorem applyWhiteBalance_fields (env : DeviceBehavior) (cfg : CameraConfig)
    (p : CameraParams) (t : SPState) :
    (applyWhiteBalance env cfg p t).m.jpegQuality = t.m.jpegQuality ∧
    (applyWhiteBalance env cfg p t).m.flashMode = t.m.flashMode ∧
    (applyWhiteBalance env cfg p t).m.zoom = t.m.zoom := by
  unfold applyWhiteBalance
  dsimp only
  repeat' split
  all_goals exact ⟨rfl, rfl, rfl⟩

/-- A white-balance tag outside the recognized table leaves the whole store
unchanged (only the dead `ret` accumulator is set). -/
theorem applyWhiteBalance_invalid (env : DeviceBehavior) (cfg : CameraConfig)
    (p : CameraParams) (t : SPState) (w : String)
    (hw : p.whiteBalance = some w) (hwc : wbCode w = none) :
    (applyWhiteBalance env cfg p t).m = t.m := by
  unfold applyWhiteBalance
  by_cases h : cfg.supportWhiteBalance <;> simp [h, hw, hwc]

/-- The exposure merge touches neither JPEG quality nor white balance nor
flash mode nor zoom. -/
theorem applyExposure_fields (env : DeviceBehavior) (cfg : CameraConfig)
    (p : CameraParams) (t : SPState) :
    (applyExposure env cfg p t).m.jpegQuality = t.m.jpegQuality ∧
    (applyExposure env cfg p t).m.whiteBalance = t.m.whiteBalance ∧
    (applyExposure env cfg p t).m.flashMode = t.m.flashMode ∧
    (applyExposure env cfg p t).m.zoom = t.m.zoom := by
  unfold applyExposure
  dsimp only
  repeat' split
  all_goals exact ⟨rfl, rfl, rfl, rfl⟩

/-- The flash merge touches neither JPEG quality nor white balance nor zoom,
and when flash is supported it commits the candidate tag verbatim. -/
theorem applyFlashMode_fields (cfg : CameraConfig) (p : CameraParams) (t : SPState) :
    (applyFlashMode cfg p t).m.jpegQuality = t.m.jpegQuality ∧
    (applyFlashMode cfg p t).m.whiteBalance = t.m.whiteBalance ∧
    (applyFlashMode cfg p t).m.zoom = t.m.zoom ∧
    (cfg.supportFlashMode = true → (applyFlashMode cfg p t).m.flashMode = p.flashMode) := by
  unfold applyFlashMode
  by_cases h : cfg.supportFlashMode <;> simp [h]

/-- The zoom merge touches neither JPEG quality nor white balance nor flash
mode, and when zoom is supported it commits the candidate value (via
`getInt`) with no range check. -/
theorem applyZoom_fields (cfg : CameraConfig) (p : CameraParams) (t : SPState) :
    (applyZoom cfg p t).m.jpegQuality = t.m.jpegQuality ∧
    (applyZoom cfg p t).m.whiteBalance = t.m.whiteBalance ∧
    (applyZoom cfg p t).m.flashMode = t.m.flashMode ∧
    (cfg.supportZoom = true → (applyZoom cfg p t).m.zoom = some (getIntD p.zoom)) := by
  unfold applyZoom
  by_cases h : cfg.supportZoom <;> simp [h]

/-- A candidate carrying an invalid white-balance tag (`twilight`) and a
legal JPEG quality (55), with the mandatory `yuv420sp`/`jpeg` formats and no
sizes. -/
def candidateWbInvalid : CameraParams where
  previewSize := none
  pictureSize := none
  videoSize := none
  previewFormat := some PIXEL_FORMAT_YUV420SP
  pictureFormat := some PIXEL_FORMAT_JPEG
  videoFrameFormat := none
  recordingHint := none
  jpegQuality := some 55
  rotation := none
  effect := none
  whiteBalance := some "twilight"
  exposureComp := none
  minExposure := none
  maxExposure := none
  flashMode := none
  zoom := none

/-- Counterexample for C2: a `setParameters` call with an invalid
white-balance tag and a valid JPEG quality commits the valid field but
returns `NO_ERROR` (success), not a non-success error status: the per-field
error accumulator of the source is discarded by its final
`return NO_ERROR;`. -/
theorem setParameters_invalid_field_returns_success :
    (setParameters envOk candidateWbInvalid stateIdle).1 = NO_ERROR ∧
    (setParameters envOk candidateWbInvalid stateIdle).2.params.jpegQuality = some 55 ∧
    (setParameters envOk candidateWbInvalid stateIdle).2.params.whiteBalance =
      stateIdle.params.whiteBalance ∧
    wbCode "twilight" = none := by
  decide

/-- Claim C2 as amended: a `setParameters` call that passes the fixed
format checks and carries an invalid white-balance tag plus an
independently valid JPEG quality commits the valid field, leaves the
white-balance unchanged, and returns success (`NO_ERROR`) — the per-field
validation failure is only logged, not reported. -/
theorem setParameters_partial_merge_returns_success (env : DeviceBehavior)
    (s : CameraHardwareState) (p : CameraParams) (q : Int) (w : String)
    (hpf : p.previewFormat = some PIXEL_FORMAT_YUV420SP)
    (hcf : p.pictureFormat = some PIXEL_FORMAT_JPEG)
    (hps : p.previewSize = none)
    (hq : p.jpegQuality = some q) (hq1 : 1 ≤ q) (hq2 : q ≤ 100)
    (hw : p.whiteBalance = some w) (hwc : wbCode w = none) :
    (setParameters env p s).1 = NO_ERROR ∧
    (setParameters env p s).2.params.jpegQuality = some q ∧
    (setParameters env p s).2.params.whiteBalance = s.params.whiteBalance := by
  have hq0 : ∀ t : SPState, (applyJpegQuality p t).m.jpegQuality = some q := by
    intro t
    unfold applyJpegQuality
    simp [hq, getIntD, hq1, hq2]
  unfold setParameters setParamsRest
  dsimp only
  refine ⟨?_, ?_, ?_⟩
  · simp [hpf, hcf, hps, getSize]
  · simp [hpf, hcf, hps, getSize, applyZoom_fields, applyFlashMode_fields,
      applyExposure_fields, applyWhiteBalance_fields, applyEffect_fields,
      applyRotation_fields, hq0]
  · simp [hpf, hcf, hps, getSize, applyZoom_fields, applyFlashMode_fields,
      applyExposure_fields, applyWhiteBalance_fields, applyEffect_fields,
      applyRotation_fields, applyJpegQuality_fields,
      applyWhiteBalance_invalid env s.cfg p _ w hw hwc]
    try split <;> rfl

/-- Witness for the amended C2 at the concrete invalid-white-balance
candidate. -/
theorem setParameters_partial_merge_returns_success_witness :
    (setParameters envOk candidateWbInvalid stateIdle).1 = NO_ERROR ∧
    (setParameters envOk candidateWbInvalid stateIdle).2.params.jpegQuality = some 55 ∧
    (setParameters envOk candidateWbInvalid stateIdle).2.params.whiteBalance =
      stateIdle.params.whiteBalance :=
  setParameters_partial_merge_returns_success envOk stateIdle candidateWbInvalid
    55 "twilight" rfl rfl rfl rfl (by decide) (by decide) rfl (by decide)

/-- A candidate carrying a flash-mode tag outside the advertised set and a
zoom index outside the advertised range, plus the mandatory formats. -/
def candidateFlashZoom : CameraParams where
  previewSize := none
  pictureSize := none
  videoSize := none
  previewFormat := some PIXEL_FORMAT_YUV420SP
  pictureFormat := some PIXEL_FORMAT_JPEG
  videoFrameFormat := none
  recordingHint := none
  jpegQuality := none
  rotation := none
  effect := none
  whiteBalance := none
  exposureComp := none
  minExposure := none
  maxExposure := none
  flashMode := some "torch"
  zoom := some 999

/-- Counterexample for C9: on a capability table advertising only flash
modes `off`/`on` and zoom indices 0..10, `setParameters` commits the flash
mode `torch` (outside the advertised set) and the zoom value 999 (outside
the advertised range) to the Parameter Store. -/
theorem setParameters_flash_zoom_outside_capability_stored :
    (setParameters envOk candidateFlashZoom stateIdle).2.params.flashMode = some "torch" ∧
    "torch" ∉ stateIdle.cfg.supportedFlashModes ∧
    (setParameters envOk candidateFlashZoom stateIdle).2.params.zoom = some 999 ∧
    ¬ (999 : Int) ≤ stateIdle.cfg.maxZoom := by
  decide

/-- Claim C9 as amended: effect, white-balance and exposure-compensation
values are validated (against the fixed tag tables and the candidate's own
min/max) before being committed, but the flash-mode and zoom fields are
committed to the Parameter Store verbatim, with no validation against the
Capability Table, whenever the device reports flash/zoom support. -/
theorem setParameters_flash_zoom_unvalidated (env : DeviceBehavior)
    (s : CameraHardwareState) (p : CameraParams)
    (hpf : p.previewFormat = some PIXEL_FORMAT_YUV420SP)
    (hcf : p.pictureFormat = some PIXEL_FORMAT_JPEG)
    (hps : p.previewSize = none)
    (hfl : s.cfg.supportFlashMode = true) (hz : s.cfg.supportZoom = true) :
    (setParameters env p s).2.params.flashMode = p.flashMode ∧
    (setParameters env p s).2.params.zoom = some (getIntD p.zoom) := by
  unfold setParameters setParamsRest
  dsimp only
  constructor <;>
    simp [hpf, hcf, hps, getSize, hfl, hz, applyZoom_fields, applyFlashMode_fields]

/-- Witness for the amended C9 at the concrete out-of-capability candidate. -/
theorem setParameters_flash_zoom_unvalidated_witness :
    (setParameters envOk candidateFlashZoom stateIdle).2.params.flashMode =
      candidateFlashZoom.flashMode ∧
    (setParameters envOk candidateFlashZoom stateIdle).2.params.zoom =
      some (getIntD candidateFlashZoom.zoom) :=
  setParameters_flash_zoom_unvalidated envOk stateIdle candidateFlashZoom
    rfl rfl rfl rfl rfl

/-- Counterexample for C4: the `take_picture` slot of the dispatch table
returns the internal status unnegated — on an unsupported picture format the
internal `takePicture` returns the positive `EINVAL` and the wrapper returns
the same positive value, not its negation. -/
theorem take_picture_dispatch_not_negated :
    takePictureDispatch envAdjust stateBadPicFmt = EINVAL ∧
    ¬ takePictureDispatch envAdjust stateBadPicFmt =
        -(takePicture envAdjust stateBadPicFmt).1 := by
  decide

/-- Claim C4 as amended: `connect`, `startPreview`, `startRecording` and
`storeMetaDataInBuffers` negate the internal status at the boundary, but the
`take_picture` and `set_parameters` dispatch slots return the internal
status unnegated. -/
theorem wrapper_negation_convention (env : DeviceBehavior) (s : CameraHardwareState)
    (p : CameraParams) (b : Bool) :
    (startPreviewPub env s).1 = -(doStartPreview env s).1 ∧
    (connectCameraPub env s).1 = -(connectDevice env s.dev).1 ∧
    (startRecordingPub env s).1 = -(cbEnableVideoRecording env s.cb).1 ∧
    (storeMetaDataInBuffersPub env b s).1 = -(cbStoreMetaDataInBuffers env b s.cb).1 ∧
    takePictureDispatch env s = (takePicture env s).1 ∧
    setParametersDispatch env p s = (setParameters env p s).1 :=
  ⟨rfl, rfl, rfl, rfl, rfl, rfl⟩

/-- Claim C10: on allocation success `getParameters` returns a freshly
allocated copy of the flattened parameters (never null), and `putParameters`
frees exactly the heap copies, not the sentinel.  But on allocation failure
the source performs `memset(ret_str, 0, ...)` BEFORE its null check, so the
null pointer is dereferenced and the static-sentinel branch is never
reached. -/
theorem getParameters_allocFail_nullDeref :
    getParametersM false paramsDefault = PtrResult.nullDeref ∧
    getParametersM true paramsDefault = PtrResult.heap (flattenParams paramsDefault) ∧
    putParametersFrees (getParametersM true paramsDefault) = true ∧
    putParametersFrees PtrResult.sentinel = false :=
  ⟨rfl, rfl, rfl, rfl⟩

end CameraHAL
